import Mathlib

/-!
Shallow embedding of the EntangledHome interpretation-and-guardrail pipeline.

The definitions below are translated from the repository sources:
  * `custom_components/entangledhome/models.py` (shared Pydantic models),
  * `custom_components/entangledhome/adapter_client.py` (guardrail-side HTTP client),
  * `custom_components/entangledhome/conversation.py` (guardrail decision engine),
  * `custom_components/entangledhome/telemetry.py` (telemetry ring buffer),
  * `adapter_service/model.py` (streaming model client, clamp validation),
  * `adapter_service/main.py` (streaming validation / bounded repair).

Python JSON values are modelled by `JsonVal` (dicts as association lists),
floats by `ℚ`, and I/O effects by explicit parameters: the HTTP layer, the
wall clocks, the executor and the repair capability are inputs to the pure
functions that model each code path.  Cryptographic hashing of dedupe tokens
(`sha256` of the canonical JSON) is modelled by the token content itself.
-/

namespace EntangledHome

/-- A JSON value as manipulated by the Python sources (dicts are ordered
association lists, matching Python dict semantics for the operations used). -/
inductive JsonVal where
  | str (s : String)
  | num (q : ℚ)
  | bool (b : Bool)
  | null
  | arr (xs : List JsonVal)
  | obj (fields : List (String × JsonVal))

mutual

/-- Structural equality on JSON values (models Python `==` on parsed JSON). -/
def JsonVal.beq : JsonVal → JsonVal → Bool
  | .str a, .str b => a == b
  | .num a, .num b => a == b
  | .bool a, .bool b => a == b
  | .null, .null => true
  | .arr as, .arr bs => JsonVal.beqList as bs
  | .obj as, .obj bs => JsonVal.beqFields as bs
  | _, _ => false

/-- Pointwise equality of JSON arrays. -/
def JsonVal.beqList : List JsonVal → List JsonVal → Bool
  | [], [] => true
  | a :: as, b :: bs => JsonVal.beq a b && JsonVal.beqList as bs
  | _, _ => false

/-- Pointwise equality of JSON objects (ordered, as produced by the sources). -/
def JsonVal.beqFields : List (String × JsonVal) → List (String × JsonVal) → Bool
  | [], [] => true
  | (ka, va) :: as, (kb, vb) :: bs =>
      ka == kb && JsonVal.beq va vb && JsonVal.beqFields as bs
  | _, _ => false

end

instance : BEq JsonVal := ⟨JsonVal.beq⟩

/-- Python truthiness of a JSON value (`bool(x)` for parsed-JSON shapes). -/
def JsonVal.truthy : JsonVal → Bool
  | .str s => !s.isEmpty
  | .num q => q != 0
  | .bool b => b
  | .null => false
  | .arr xs => !xs.isEmpty
  | .obj fs => !fs.isEmpty

/-- Whether `str(x).strip()` is non-empty in Python.  Only a string can
render to pure whitespace; every other JSON shape has a non-blank `str()`
(`None`, `True`/`False`, digits, `[...]`, `\x7b...\x7d`). -/
def JsonVal.strTrimNonempty : JsonVal → Bool
  | .str s => !s.trim.isEmpty
  | _ => true

/-- Look up a key in a JSON object's field list (`dict.get`). -/
def jget (fields : List (String × JsonVal)) (key : String) : Option JsonVal :=
  List.lookup key fields

/-- Set a key in a JSON object's field list (`dict.__setitem__`): replace in
place when present, append otherwise. -/
def jset (fields : List (String × JsonVal)) (key : String) (v : JsonVal) :
    List (String × JsonVal) :=
  if fields.any (fun p => p.1 == key) then
    fields.map (fun p => if p.1 == key then (p.1, v) else p)
  else
    fields ++ [(key, v)]

/-- `models.py InterpretResponse`: the structured interpretation shared by the
adapter service and the guardrail engine.  `params` keeps the raw JSON object. -/
structure InterpretResponse where
  intent : String
  area : Option String := none
  targets : Option (List String) := none
  params : List (String × JsonVal) := []
  confidence : ℚ
  sensitive : Bool := false
  required_secondary_signals : List String := []
  qdrant_terms : List String := []
  adapter_error : Option String := none

/-- Extract a JSON string. -/
def asString : JsonVal → Option String
  | .str s => some s
  | _ => none

/-- Extract a JSON number (float/int field in the Pydantic model). -/
def asNum : JsonVal → Option ℚ
  | .num q => some q
  | _ => none

/-- Extract a JSON array of strings (`list[str]` field). -/
def asStringList : JsonVal → Option (List String)
  | .arr xs =>
      xs.foldr
        (fun x acc =>
          match x, acc with
          | .str s, some l => some (s :: l)
          | _, _ => none)
        (some [])
  | _ => none

/-- Field names admitted by `InterpretResponse` (`extra="forbid"`). -/
def interpretResponseKeys : List String :=
  ["intent", "area", "targets", "params", "confidence", "sensitive",
   "required_secondary_signals", "qdrant_terms", "adapter_error"]

/-- An optional string field (`str | None = None`): absent or `null` is `none`. -/
def optStringField (fields : List (String × JsonVal)) (key : String) :
    Option (Option String) :=
  match jget fields key with
  | none => some none
  | some .null => some none
  | some (.str s) => some (some s)
  | some _ => none

/-- An optional string-list field with a default. -/
def stringListField (fields : List (String × JsonVal)) (key : String)
    (dflt : List String) : Option (List String) :=
  match jget fields key with
  | none => some dflt
  | some v => asStringList v

/-- Validation of a JSON object against the `InterpretResponse` model: the
single schema both `jsonschema` (via `model_json_schema`) and
`InterpretResponse.model_validate` enforce in the sources.  Returns the parsed
response, or `none` on any validation failure (missing/ill-typed required
field, out-of-range confidence, unknown extra key). -/
def validateInterpretResponse (fields : List (String × JsonVal)) :
    Option InterpretResponse :=
  if !fields.all (fun p => interpretResponseKeys.contains p.1) then none
  else
    match jget fields "intent" with
    | some (.str intent) =>
      match optStringField fields "area" with
      | none => none
      | some area =>
        match
          (match jget fields "targets" with
           | none => some none
           | some .null => some none
           | some v => (asStringList v).map some) with
        | none => none
        | some targets =>
          match
            (match jget fields "params" with
             | none => some []
             | some (.obj fs) => some fs
             | some _ => none) with
          | none => none
          | some params =>
            match (jget fields "confidence").bind asNum with
            | none => none
            | some confidence =>
              if !(decide (0 ≤ confidence) && decide (confidence ≤ 1)) then none
              else
                match
                  (match jget fields "sensitive" with
                   | none => some false
                   | some (.bool b) => some b
                   | some _ => none) with
                | none => none
                | some sensitive =>
                  match stringListField fields "required_secondary_signals" [] with
                  | none => none
                  | some required =>
                    match stringListField fields "qdrant_terms" [] with
                    | none => none
                    | some terms =>
                      match optStringField fields "adapter_error" with
                      | none => none
                      | some adapterError =>
                        some
                          { intent := intent
                            area := area
                            targets := targets
                            params := params
                            confidence := confidence
                            sensitive := sensitive
                            required_secondary_signals := required
                            qdrant_terms := terms
                            adapter_error := adapterError }
    | _ => none

/-- Validate an arbitrary JSON body: the schema requires an object. -/
def validateInterpretResponseVal : JsonVal → Option InterpretResponse
  | .obj fields => validateInterpretResponse fields
  | _ => none

/-! ### `adapter_client.py` — guardrail-side HTTP client -/

namespace AdapterClient

/-- Outcome of the HTTP POST in `AdapterClient.interpret`, as observed by the
client code: `statusError` models `httpx.HTTPStatusError` raised by
`raise_for_status` (carrying the response status and the exception message),
`transportError` models every other `httpx.HTTPError` (timeouts, connection
failures), `jsonDecodeError` a `response.json()` failure, and `okJson` a 2xx
response with its parsed JSON body. -/
inductive HttpResult where
  | statusError (status : ℕ) (msg : String)
  | transportError (msg : String)
  | jsonDecodeError (msg : String)
  | okJson (body : JsonVal)

/-- `AdapterClient._failure_response`: the safe `noop` fallback. -/
def failure_response (utterance reason adapterError : String) : InterpretResponse :=
  { intent := "noop"
    params := [("reason", .str reason), ("utterance", .str utterance)]
    confidence := 0
    adapter_error := some adapterError }

/-- `jsonschema.ValidationError` message for a body rejected by the response
schema; the source stores `str(exc)`, which is never empty for `jsonschema`
errors.  Modelled as a constant description. -/
def validationErrorMessage : String := "response body failed schema validation"

/-- `AdapterClient.interpret`, after the request body has been built and sent:
maps the transport outcome to either a hard `AdapterClientError` (HTTP 401) or
an `InterpretResponse` (validated body, or safe `noop` fallback). -/
def interpret (utterance : String) (result : HttpResult) :
    Except String InterpretResponse :=
  match result with
  | .statusError status msg =>
      if status = 401 then .error "Adapter rejected signature"
      else .ok (failure_response utterance "Adapter request failed" msg)
  | .transportError msg =>
      .ok (failure_response utterance "Adapter request failed" msg)
  | .jsonDecodeError msg =>
      .ok (failure_response utterance "Adapter returned invalid JSON" msg)
  | .okJson body =>
      match validateInterpretResponseVal body with
      | some validated => .ok validated
      | none =>
          .ok (failure_response utterance "Adapter response failed validation"
                validationErrorMessage)

/-- The non-401 failure modes of `interpret` (claim C3's second family). -/
def isNonAuthFailure : HttpResult → Prop
  | .statusError status _ => status ≠ 401
  | .transportError _ => True
  | .jsonDecodeError _ => True
  | .okJson body => validateInterpretResponseVal body = none

/-- The failure detail copied into `adapter_error` on each failure mode. -/
def failureDetail : HttpResult → String
  | .statusError _ msg => msg
  | .transportError msg => msg
  | .jsonDecodeError msg => msg
  | .okJson _ => validationErrorMessage

/-- The human-readable `params.reason` used for each failure mode. -/
def failureReason : HttpResult → String
  | .statusError _ _ => "Adapter request failed"
  | .transportError _ => "Adapter request failed"
  | .jsonDecodeError _ => "Adapter returned invalid JSON"
  | .okJson _ => "Adapter response failed validation"

end AdapterClient

/-! ### `adapter_service/model.py` — `ModelClient` -/

namespace ModelClient

/-- Digits of a decimal literal as a natural number. -/
def digitsToNat (cs : List Char) : ℕ :=
  cs.foldl (fun n c => 10 * n + (c.toNat - 48)) 0

/-- Parse an optionally signed decimal numeral (`float(<str>)` for plain
`int.frac` literals; other Python float syntaxes are not exercised by the
sources and parse to `none`, i.e. `ValueError`). -/
def parseDecimal (s : String) : Option ℚ :=
  let t := s.trim.toList
  let (sign, digits) :=
    match t with
    | '-' :: rest => ((-1 : ℚ), rest)
    | '+' :: rest => ((1 : ℚ), rest)
    | _ => ((1 : ℚ), t)
  match digits.splitOn '.' with
  | [intPart] =>
      if intPart ≠ [] ∧ intPart.all Char.isDigit then
        some (sign * digitsToNat intPart)
      else none
  | [intPart, fracPart] =>
      if (intPart ≠ [] ∨ fracPart ≠ []) ∧ intPart.all Char.isDigit ∧
          fracPart.all Char.isDigit then
        some (sign * (digitsToNat intPart +
          (digitsToNat fracPart : ℚ) / ((10 : ℚ) ^ fracPart.length)))
      else none
  | _ => none

/-- Python `float(x)` on a JSON value: numbers and booleans convert, numeric
strings parse, everything else raises (`TypeError`/`ValueError` → `none`). -/
def pyFloat : JsonVal → Option ℚ
  | .num q => some q
  | .bool b => some (if b then 1 else 0)
  | .str s => parseDecimal s
  | _ => none

/-- The confidence value `ModelClient._validate_response` writes back before
validation: `float(payload.get("confidence", 0.0))` with coercion failures
falling back to `0.0`, then clamped by `max(0.0, min(1.0, value))`. -/
def normalizedConfidence (payload : List (String × JsonVal)) : ℚ :=
  let confidenceValue :=
    (pyFloat ((jget payload "confidence").getD (.num 0))).getD 0
  max 0 (min 1 confidenceValue)

/-- `ModelClient._validate_response`: clamp confidence, coerce a non-dict
`params` to an empty object, then validate against `InterpretResponse`. -/
def validate_response (payload : List (String × JsonVal)) :
    Option InterpretResponse :=
  let normalized := jset payload "confidence" (.num (normalizedConfidence payload))
  let normalized :=
    match jget normalized "params" with
    | some (.obj _) => normalized
    | _ => jset normalized "params" (.obj [])
  validateInterpretResponse normalized

/-- `ModelClient.stream`, lines 50-54: drive the collected responses, yielding
each one and stopping right after the first whose confidence meets the
threshold.  Returns the yielded responses together with the unconsumed suffix
of the upstream stream (the fragments the consumer never observes). -/
def streamStep (threshold : ℚ) :
    List InterpretResponse → List InterpretResponse × List InterpretResponse
  | [] => ([], [])
  | r :: rest =>
      if threshold ≤ r.confidence then ([r], rest)
      else
        let (yielded, unconsumed) := streamStep threshold rest
        (r :: yielded, unconsumed)

/-- `ModelClient.stream`: an unset model name yields nothing at once;
otherwise the early-stopping consumption of the validated stream. -/
def stream (model : String) (threshold : ℚ)
    (collected : List InterpretResponse) :
    List InterpretResponse × List InterpretResponse :=
  if model.isEmpty then ([], collected)
  else streamStep threshold collected

end ModelClient

/-! ### `adapter_service/main.py` — `StreamingModel` validation and repair -/

namespace StreamingModel

/-- A raw streamed candidate as classified by `_coerce_to_response`:
already an `InterpretResponse`, a JSON mapping, or a non-mapping value. -/
inductive RawCandidate where
  | resp (r : InterpretResponse)
  | mapping (fields : List (String × JsonVal))
  | nonMapping (v : JsonVal)

/-- Behaviour of the external repair capability on one candidate:
`ModelClient.repair` may raise, return `None`, or return an
`InterpretResponse | dict` payload. -/
inductive RepairResult where
  | raises
  | noneResult
  | repaired (candidate : RawCandidate)

mutual

/-- `StreamingModel._coerce_to_response`, instrumented with the number of
repair attempts made: validation successes pass candidates through, failures
delegate to `_attempt_repair` only when `allow_repair` holds. -/
def coerce_to_response (raw : RawCandidate) (repair : RepairResult)
    (allow_repair : Bool) : Option InterpretResponse × ℕ :=
  match raw with
  | .resp r => (some r, 0)
  | .nonMapping _ =>
      if allow_repair then attempt_repair repair else (none, 0)
  | .mapping fields =>
      match validateInterpretResponse fields with
      | some r => (some r, 0)
      | none =>
          if allow_repair then attempt_repair repair else (none, 0)
termination_by if allow_repair then 2 else 0

/-- `StreamingModel._attempt_repair`: one call to the repair capability; a
raised error or a `None` result drops the candidate, a payload is
re-validated with repair disabled. -/
def attempt_repair (repair : RepairResult) : Option InterpretResponse × ℕ :=
  match repair with
  | .raises => (none, 1)
  | .noneResult => (none, 1)
  | .repaired candidate =>
      let (result, extra) := coerce_to_response candidate .raises false
      (result, 1 + extra)
termination_by 1

end

/-- `StreamingModel.stream`, lines 483-497: candidates whose coercion returns
`None` are dropped (`continue`); the rest are yielded in order. -/
def streamOutputs (candidates : List (RawCandidate × RepairResult)) :
    List InterpretResponse :=
  candidates.filterMap (fun c => (coerce_to_response c.1 c.2 true).1)

end StreamingModel

/-! ### `conversation.py` — guardrail decision engine -/

namespace Conversation

/-- `GuardrailBundle`: normalized per-intent policy configuration (maps are
association lists keyed by intent name). -/
structure GuardrailBundle where
  intent_thresholds : List (String × ℚ) := []
  disabled_intents : List String := []
  dangerous_intents : List String := []
  allowed_hours : List (String × (ℤ × ℤ)) := []
  recent_command_windows : List (String × ℚ) := []

/-- `GuardrailBundle.threshold_for`. -/
def GuardrailBundle.threshold_for (g : GuardrailBundle) (intent : String) :
    Option ℚ :=
  List.lookup intent g.intent_thresholds

/-- `GuardrailBundle.dedupe_window_for`. -/
def GuardrailBundle.dedupe_window_for (g : GuardrailBundle) (intent : String) :
    Option ℚ :=
  List.lookup intent g.recent_command_windows

/-- `GuardrailBundle.allowed_hours_for`. -/
def GuardrailBundle.allowed_hours_for (g : GuardrailBundle) (intent : String) :
    Option (ℤ × ℤ) :=
  List.lookup intent g.allowed_hours

/-- `GuardrailBundle.is_disabled`. -/
def GuardrailBundle.is_disabled (g : GuardrailBundle) (intent : String) : Bool :=
  g.disabled_intents.contains intent

/-- `GuardrailBundle.is_dangerous`. -/
def GuardrailBundle.is_dangerous (g : GuardrailBundle) (intent : String) : Bool :=
  g.dangerous_intents.contains intent

/-- The merged per-intent view assembled by `GuardrailBundle.intent_config`
(a dict whose keys are present only when configured). -/
structure IntentConfig where
  confidence_threshold : Option ℚ
  recent_command_window : Option ℚ
  allowed_hours : Option (ℤ × ℤ)
  dangerous : Bool
  disabled : Bool

/-- `GuardrailBundle.intent_config`. -/
def GuardrailBundle.intent_config (g : GuardrailBundle) (intent : String) :
    IntentConfig :=
  { confidence_threshold := g.threshold_for intent
    recent_command_window := g.dedupe_window_for intent
    allowed_hours := g.allowed_hours_for intent
    dangerous := g.is_dangerous intent
    disabled := g.is_disabled intent }

/-- The config-entry options read by `async_handle`, already coerced to their
target types (`bool(...)`, `float(...)`, `int(...)` of the raw option values,
falling back to the documented defaults when absent). -/
structure Options where
  night_mode_enabled : Bool
  night_mode_start_hour : ℤ
  night_mode_end_hour : ℤ
  enable_confidence_gate : Bool
  confidence_threshold : ℚ
  deduplication_window : ℚ

/-- `_night_mode_active`: blackout-window membership with wrap-around; an
equal-endpoint window is treated as all-day. -/
def night_mode_active (options : Options) (hour : ℤ) : Bool :=
  if !options.night_mode_enabled then false
  else
    let start := options.night_mode_start_hour
    let endHour := options.night_mode_end_hour
    if start = endHour then true
    else if start < endHour then decide (start ≤ hour) && decide (hour < endHour)
    else decide (start ≤ hour) || decide (hour < endHour)

/-- `_confidence_blocked`: the global confidence gate. -/
def confidence_blocked (response : InterpretResponse) (options : Options) :
    Bool :=
  if !options.enable_confidence_gate then false
  else decide (response.confidence < options.confidence_threshold)

/-- `_within_allowed_hours`: allowed-hours membership with wrap-around; an
equal-endpoint window permits every hour. -/
def within_allowed_hours (hours : ℤ × ℤ) (current : ℤ) : Bool :=
  let (start, endHour) := hours
  if start = endHour then true
  else if start < endHour then decide (start ≤ current) && decide (current < endHour)
  else decide (start ≤ current) || decide (current < endHour)

/-- Content identity of a response for dedupe purposes.  The source hashes the
canonical JSON of these four fields with SHA-256; the hash is modelled by the
hashed content itself. -/
structure ResponseToken where
  intent : String
  area : Option String
  targets : List String
  params : List (String × JsonVal)

/-- Equality of dedupe tokens (Python compares the SHA-256 hex digests of the
canonical serializations; equal content gives equal digests). -/
def ResponseToken.beq (a b : ResponseToken) : Bool :=
  a.intent == b.intent && a.area == b.area && a.targets == b.targets &&
    JsonVal.beqFields a.params b.params

instance : BEq ResponseToken := ⟨ResponseToken.beq⟩

/-- `_response_token`: `targets` of `None` serializes as the empty list. -/
def response_token (response : InterpretResponse) : ResponseToken :=
  { intent := response.intent
    area := response.area
    targets := response.targets.getD []
    params := response.params }

/-- The dedupe map: content token → last-accepted monotonic timestamp. -/
abbrev DedupeMap : Type := List (ResponseToken × ℚ)

/-- `_prune_dedupe`: a non-positive window clears the map; otherwise every
entry whose age reaches the window is dropped. -/
def prune_dedupe (dedupe : DedupeMap) (current window : ℚ) : DedupeMap :=
  if window ≤ 0 then []
  else (dedupe : List (ResponseToken × ℚ)).filter
    (fun entry => decide (current - entry.2 < window))

/-- `dict.get` on the dedupe map (first entry whose key matches the token). -/
def dedupe_get (dedupe : DedupeMap) (token : ResponseToken) : Option ℚ :=
  match dedupe with
  | [] => none
  | entry :: rest =>
      if entry.1 == token then some entry.2 else dedupe_get rest token

/-- `_is_recent_duplicate`. -/
def is_recent_duplicate (dedupe : DedupeMap) (token : ResponseToken)
    (current window : ℚ) : Bool :=
  match dedupe_get dedupe token with
  | none => false
  | some timestamp => decide (current - timestamp < window)

/-- `dict.__setitem__` on the dedupe map (`self._dedupe[token] = now_value`). -/
def dedupe_set (dedupe : DedupeMap) (token : ResponseToken) (value : ℚ) :
    DedupeMap :=
  if (dedupe : List (ResponseToken × ℚ)).any (fun p => p.1 == token) then
    (dedupe : List (ResponseToken × ℚ)).map
      (fun p => if p.1 == token then (p.1, value) else p)
  else (dedupe : List (ResponseToken × ℚ)) ++ [(token, value)]

/-- `_missing_secondary_signals`: required signals whose lower-cased name is
not among the lower-cased provided signals. -/
def missing_secondary_signals (response : InterpretResponse)
    (provided : List String) : List String :=
  let required := response.required_secondary_signals
  if required.isEmpty then []
  else
    let lowered := provided.map String.toLower
    required.filter (fun signal => !lowered.contains signal.toLower)

/-- `_format_secondary_signal_message`. -/
def format_secondary_signal_message (missing : List String) : String :=
  let detail := String.intercalate ", " missing
  if detail.isEmpty then "Secondary signals required."
  else "Secondary signals required: " ++ detail ++ "."

/-- Truthiness of a `verification_flags`-style value: a non-blank string, or a
list with some non-blank `str(...)` element. -/
def flagsTruthy : Option JsonVal → Bool
  | some (.str s) => !s.trim.isEmpty
  | some (.arr xs) => xs.any JsonVal.strTrimNonempty
  | _ => false

/-- `_has_verification_flags`: sequential checks over `params` —
`verification_flags`, then a nested `verification` mapping (`flags`,
`confirmed or verified` as a boolean), then a top-level boolean `verified`. -/
def has_verification_flags (params : List (String × JsonVal)) : Bool :=
  flagsTruthy (jget params "verification_flags") ||
  (match jget params "verification" with
   | some (.obj verification) =>
       flagsTruthy (jget verification "flags") ||
       (let confirmedRaw := jget verification "confirmed"
        let chosen :=
          if (confirmedRaw.map JsonVal.truthy).getD false then confirmedRaw
          else jget verification "verified"
        match chosen with
        | some (.bool b) => b
        | _ => false)
   | _ => false) ||
  (match jget params "verified" with
   | some (.bool b) => b
   | _ => false)

/-- `ConversationResult`. -/
structure ConversationResult where
  success : Bool
  response : String

/-- Arguments of one `TelemetryRecorder.record_event` call made by the
handler (`_record_telemetry`). -/
structure TelemetryArgs where
  utterance : String
  qdrant_terms : List String
  response : InterpretResponse
  duration_ms : ℚ
  outcome : String

/-- One structured guardrail log entry (`_emit_guardrail_log`): the reason
code and outcome tag it carries. -/
structure GuardrailLog where
  reason : String
  outcome : String
deriving DecidableEq

/-- Which terminal path of `async_handle` produced the result (trace tag for
specification purposes; each constructor marks one return site). -/
inductive HandleOutcome where
  | blocked (reason : String)
  | executed
  | failed
deriving DecidableEq

/-- Result of `ExecResult`: behaviour of the external intent executor on this
call — success, a typed `IntentHandlingError`, or any other exception. -/
inductive ExecResult where
  | ok
  | handlingError (msg : String)
  | unexpectedError
deriving DecidableEq

/-- Everything observable about one `async_handle` call: the returned
`ConversationResult`, whether the adapter was contacted, the telemetry events
recorded in order, the guardrail log entries emitted, the final dedupe map,
and the terminal-path tag. -/
structure HandleOutput where
  result : ConversationResult
  adapterCalled : Bool
  telemetry : List TelemetryArgs
  guardrailLogs : List GuardrailLog
  dedupe : DedupeMap
  outcome : HandleOutcome

/-- `_guardrail_block`: emit a blocked guardrail log and return a failure
result; no telemetry is recorded on this path. -/
def guardrail_block (dedupe : DedupeMap) (message reason : String) :
    HandleOutput :=
  { result := ⟨false, message⟩
    adapterCalled := true
    telemetry := []
    guardrailLogs := [⟨reason, "blocked"⟩]
    dedupe := dedupe
    outcome := .blocked reason }

/-- `_executor_failure_result`: record a `failed` telemetry event and return a
failure result; no guardrail log is emitted on this path. -/
def executor_failure_result (dedupe : DedupeMap) (utterance : String)
    (response : InterpretResponse) (start_time end_time : ℚ)
    (message : String) : HandleOutput :=
  { result := ⟨false, message⟩
    adapterCalled := true
    telemetry :=
      [⟨utterance, response.qdrant_terms, response,
        max 0 ((end_time - start_time) * 1000), "failed"⟩]
    guardrailLogs := []
    dedupe := dedupe
    outcome := .failed }

/-- `EntangledHomeConversationHandler.async_handle`, as a pure function of the
call's environment: the options and guardrail bundle in force, the dedupe map
carried between calls, the current hour (`now().hour`), the adapter's
interpreted response, the currently available secondary signals, the
executor's behaviour, and the three monotonic clock samples the call takes
(`start_time`, `now_value`, `end_time`). -/
def async_handle (options : Options) (guardrails : GuardrailBundle)
    (dedupe0 : DedupeMap) (currentHour : ℤ) (response : InterpretResponse)
    (providedSignals : List String) (execResult : ExecResult)
    (t0 t1 t2 : ℚ) (utterance : String) : HandleOutput :=
  if night_mode_active options currentHour then
    { result := ⟨false, "Night mode is active. Try again later."⟩
      adapterCalled := false
      telemetry := []
      guardrailLogs := [⟨"night_mode_active", "blocked"⟩]
      dedupe := dedupe0
      outcome := .blocked "night_mode_active" }
  else
    let intent := response.intent
    let intentConfig := guardrails.intent_config intent
    let thresholdOverride := intentConfig.confidence_threshold
    let dedupeWindow :=
      intentConfig.recent_command_window.getD options.deduplication_window
    let allowedHours := intentConfig.allowed_hours
    let isDangerous := intentConfig.dangerous
    if guardrails.is_disabled intent then
      guardrail_block dedupe0 "This intent is disabled by configuration."
        "intent_disabled"
    else if thresholdOverride.any (fun t => decide (response.confidence < t)) then
      guardrail_block dedupe0 "Confidence too low to execute safely."
        "intent_threshold"
    else if confidence_blocked response options then
      guardrail_block dedupe0 "Confidence too low to execute safely."
        "confidence_gate"
    else
      let token := response_token response
      let dedupe1 := prune_dedupe dedupe0 t1 dedupeWindow
      if decide (0 < dedupeWindow) &&
          is_recent_duplicate dedupe1 token t1 dedupeWindow then
        guardrail_block dedupe1 "Duplicate command suppressed."
          "duplicate_suppressed"
      else
        let missing := missing_secondary_signals response providedSignals
        if !missing.isEmpty then
          guardrail_block dedupe1 (format_secondary_signal_message missing)
            "missing_secondary_signals"
        else if isDangerous &&
            allowedHours.any (fun h => !within_allowed_hours h currentHour) then
          guardrail_block dedupe1 "Intent is restricted to allowed hours."
            "dangerous_intent_after_hours"
        else if isDangerous && !has_verification_flags response.params then
          guardrail_block dedupe1
            "Additional verification required before executing this intent."
            "dangerous_intent_missing_verification"
        else
          match execResult with
          | .handlingError msg =>
              executor_failure_result dedupe1 utterance response t0 t2
                (if msg.isEmpty then "Intent execution failed."
                 else "Intent execution failed: " ++ msg)
          | .unexpectedError =>
              executor_failure_result dedupe1 utterance response t0 t2
                "Intent execution failed due to an unexpected error."
          | .ok =>
              let dedupe2 :=
                if decide (0 < dedupeWindow) then dedupe_set dedupe1 token t1
                else dedupe1
              { result := ⟨true, "Intent executed successfully."⟩
                adapterCalled := true
                telemetry :=
                  [⟨utterance, response.qdrant_terms, response,
                    max 0 ((t2 - t0) * 1000), "executed"⟩]
                guardrailLogs := [⟨"intent_executed", "executed"⟩]
                dedupe := dedupe2
                outcome := .executed }

/-- The effective dedupe window of one call: the per-intent override when
present, the global option otherwise (the `dedupe_window` resolution in
`async_handle`). -/
def effective_window (guardrails : GuardrailBundle) (options : Options)
    (intent : String) : ℚ :=
  ((guardrails.intent_config intent).recent_command_window).getD
    options.deduplication_window

end Conversation

/-! ### `telemetry.py` — `TelemetryRecorder` ring buffer -/

namespace TelemetryRecorder

/-- `TelemetryRecorder.record_event`'s buffer update: append the event to a
deque with `maxlen = max(1, max_events)`, silently evicting the oldest. -/
def record_event (max_events : ℕ) (events : List Conversation.TelemetryArgs)
    (event : Conversation.TelemetryArgs) : List Conversation.TelemetryArgs :=
  let cap := max 1 max_events
  let appended := events ++ [event]
  appended.drop (appended.length - cap)

end TelemetryRecorder

/-! ### Concrete instances used to exercise the model -/

namespace Examples

open Conversation

/-- Options with night mode disabled and guardrails otherwise quiet. -/
def plainOptions : Options :=
  { night_mode_enabled := false
    night_mode_start_hour := 23
    night_mode_end_hour := 6
    enable_confidence_gate := false
    confidence_threshold := mkRat 7 10
    deduplication_window := 2 }

/-- Options with night mode enabled over the wrap-around window 23 to 6. -/
def nightOptions : Options :=
  { plainOptions with night_mode_enabled := true }

/-- Options with night mode enabled over an equal-endpoint window. -/
def allDayNightOptions : Options :=
  { plainOptions with night_mode_enabled := true, night_mode_end_hour := 23 }

/-- Options with the global confidence gate enabled at threshold 0.8. -/
def gateOptions : Options :=
  { plainOptions with
      enable_confidence_gate := true
      confidence_threshold := mkRat 4 5 }

/-- A guardrail bundle carrying a per-intent threshold override of 0.5 for
`turn_on`. -/
def overrideBundle : GuardrailBundle :=
  { intent_thresholds := [("turn_on", mkRat 1 2)] }

/-- A `turn_on` response with confidence 0.6: above the override, below the
global threshold. -/
def midResponse : InterpretResponse :=
  { intent := "turn_on", confidence := mkRat 3 5 }

/-- A high-confidence `turn_on` response. -/
def okResponse : InterpretResponse :=
  { intent := "turn_on"
    area := some "kitchen"
    targets := some ["light.kitchen"]
    confidence := mkRat 24 25 }

/-- Streamed responses with confidences 0.5, 0.86 and 0.9. -/
def lowResponse : InterpretResponse := { intent := "turn_on", confidence := mkRat 1 2 }

/-- Second streamed response (confidence 0.86, above threshold 0.8). -/
def stopResponse : InterpretResponse := { intent := "turn_on", confidence := mkRat 43 50 }

/-- Third streamed response: never observed by the consumer. -/
def tailResponse : InterpretResponse := { intent := "turn_on", confidence := mkRat 9 10 }

end Examples

/-! ## Theorems -/

/-- C3: `AdapterClient.interpret` raises the hard `AdapterClientError` exactly
on an HTTP 401 response; every other failure mode (any other non-2xx status,
transport error/timeout, invalid JSON, response schema-validation failure)
does not raise and returns a well-formed `noop` response whose
`adapter_error` carries the non-empty failure detail and whose `params` holds
a human-readable `reason` entry. -/
theorem C3_adapter_failure_mapping (utterance : String)
    (r : AdapterClient.HttpResult) :
    ((∃ msg, r = .statusError 401 msg) →
        ∃ e, AdapterClient.interpret utterance r = .error e) ∧
    (AdapterClient.isNonAuthFailure r → AdapterClient.failureDetail r ≠ "" →
        ∃ resp, AdapterClient.interpret utterance r = .ok resp ∧
          resp.intent = "noop" ∧
          resp.adapter_error = some (AdapterClient.failureDetail r) ∧
          AdapterClient.failureDetail r ≠ "" ∧
          jget resp.params "reason" =
            some (.str (AdapterClient.failureReason r)) ∧
          AdapterClient.failureReason r ≠ "" ∧
          0 ≤ resp.confidence ∧ resp.confidence ≤ 1) := by
  constructor
  · rintro ⟨msg, rfl⟩
    exact ⟨"Adapter rejected signature", rfl⟩
  · intro h1 h2
    cases r with
    | statusError status msg =>
        have hne : ¬ status = 401 := h1
        exact ⟨AdapterClient.failure_response utterance "Adapter request failed" msg,
          by simp [AdapterClient.interpret, hne], rfl, rfl, h2, rfl,
          by show ("Adapter request failed" : String) ≠ ""; decide,
          by show (0:ℚ) ≤ 0; decide, by show (0:ℚ) ≤ 1; decide⟩
    | transportError msg =>
        exact ⟨AdapterClient.failure_response utterance "Adapter request failed" msg,
          rfl, rfl, rfl, h2, rfl,
          by show ("Adapter request failed" : String) ≠ ""; decide,
          by show (0:ℚ) ≤ 0; decide, by show (0:ℚ) ≤ 1; decide⟩
    | jsonDecodeError msg =>
        exact ⟨AdapterClient.failure_response utterance "Adapter returned invalid JSON" msg,
          rfl, rfl, rfl, h2, rfl,
          by show ("Adapter returned invalid JSON" : String) ≠ ""; decide,
          by show (0:ℚ) ≤ 0; decide, by show (0:ℚ) ≤ 1; decide⟩
    | okJson body =>
        have hv : validateInterpretResponseVal body = none := h1
        exact ⟨AdapterClient.failure_response utterance "Adapter response failed validation"
            AdapterClient.validationErrorMessage,
          by simp [AdapterClient.interpret, hv], rfl, rfl, h2, rfl,
          by show ("Adapter response failed validation" : String) ≠ ""; decide,
          by show (0:ℚ) ≤ 0; decide, by show (0:ℚ) ≤ 1; decide⟩

/-- Witness for C3: a 401 propagates as a hard error; a read timeout yields
the safe `noop` response with non-empty `adapter_error` and `params.reason`. -/
theorem C3_adapter_failure_mapping_witness :
    (∃ e, AdapterClient.interpret "turn on"
        (.statusError 401 "signature rejected") = .error e) ∧
    (∃ resp, AdapterClient.interpret "turn on"
          (.transportError "ReadTimeout: timed out") = .ok resp ∧
        resp.intent = "noop" ∧
        resp.adapter_error =
          some (AdapterClient.failureDetail
            (.transportError "ReadTimeout: timed out")) ∧
        AdapterClient.failureDetail
            (.transportError "ReadTimeout: timed out") ≠ "" ∧
        jget resp.params "reason" =
          some (.str (AdapterClient.failureReason
            (.transportError "ReadTimeout: timed out"))) ∧
        AdapterClient.failureReason
            (.transportError "ReadTimeout: timed out") ≠ "" ∧
        0 ≤ resp.confidence ∧ resp.confidence ≤ 1) :=
  ⟨(C3_adapter_failure_mapping "turn on"
      (.statusError 401 "signature rejected")).1 ⟨"signature rejected", rfl⟩,
   (C3_adapter_failure_mapping "turn on"
      (.transportError "ReadTimeout: timed out")).2 trivial (by decide)⟩

/-- Inversion for the shared schema: an accepted response has its confidence
within the closed interval `[0,1]` enforced by the schema. -/
theorem validateInterpretResponse_confidence_bounds
    (fields : List (String × JsonVal)) (resp : InterpretResponse)
    (h : validateInterpretResponse fields = some resp) :
    0 ≤ resp.confidence ∧ resp.confidence ≤ 1 := by
  unfold validateInterpretResponse at h
  repeat' split at h
  any_goals simp_all
  cases h
  simp_all

/-- C6: every `InterpretResponse` produced by the streaming validation path
has confidence in `[0,1]`; an out-of-range confidence (such as `1.4`) is
clamped to the boundary rather than rejected, and a missing or non-numeric
confidence is coerced to `0.0` before validation. -/
theorem C6_confidence_clamp :
    (∀ payload resp, ModelClient.validate_response payload = some resp →
        0 ≤ resp.confidence ∧ resp.confidence ≤ 1) ∧
    (∀ payload q, jget payload "confidence" = some (.num q) → 1 ≤ q →
        ModelClient.normalizedConfidence payload = 1) ∧
    (∀ payload v, jget payload "confidence" = some v →
        ModelClient.pyFloat v = none →
        ModelClient.normalizedConfidence payload = 0) ∧
    (∀ payload, jget payload "confidence" = none →
        ModelClient.normalizedConfidence payload = 0) ∧
    (ModelClient.validate_response
        [("intent", .str "turn_on"), ("confidence", .num (mkRat 7 5))]).map
      (fun r => r.confidence) = some 1 := by
  refine ⟨?_, ?_, ?_, ?_, by decide⟩
  · intro payload resp h
    exact validateInterpretResponse_confidence_bounds _ _ h
  · intro payload q h hq
    unfold ModelClient.normalizedConfidence
    rw [h]
    simp [ModelClient.pyFloat, min_eq_left hq.le, le_max_iff]
    rw [min_eq_left hq]
    exact max_eq_right (by norm_num)
  · intro payload v h hv
    unfold ModelClient.normalizedConfidence
    rw [h]
    simp [hv]
  · intro payload h
    unfold ModelClient.normalizedConfidence
    rw [h]
    simp [ModelClient.pyFloat]

/-- Witness for C6 at concrete payloads: confidence `1.4` clamps to `1`, a
non-numeric confidence coerces to `0`, a missing confidence coerces to `0`,
and a validated clamped payload lands inside `[0,1]`. -/
theorem C6_confidence_clamp_witness :
    (0 ≤ (1 : ℚ) ∧ (1 : ℚ) ≤ 1) ∧
    ModelClient.normalizedConfidence [("confidence", .num (mkRat 7 5))] = 1 ∧
    ModelClient.normalizedConfidence [("confidence", JsonVal.null)] = 0 ∧
    ModelClient.normalizedConfidence [("intent", .str "turn_on")] = 0 :=
  ⟨C6_confidence_clamp.1 [("intent", .str "turn_on"), ("confidence", .num (mkRat 7 5))]
      { intent := "turn_on", confidence := 1, params := [] } rfl,
   C6_confidence_clamp.2.1 [("confidence", .num (mkRat 7 5))] (mkRat 7 5) rfl
      (by decide),
   C6_confidence_clamp.2.2.1 [("confidence", JsonVal.null)] JsonVal.null
      rfl rfl,
   C6_confidence_clamp.2.2.2.1 [("intent", .str "turn_on")] rfl⟩

/-- Characterization of the early-stopping consumer: the yielded responses
are the below-threshold prefix plus the first threshold-meeting response, and
the unconsumed suffix is everything after that response. -/
theorem streamStep_characterization (t : ℚ) (l : List InterpretResponse) :
    ModelClient.streamStep t l =
      (l.takeWhile (fun r => !decide (t ≤ r.confidence)) ++
         (l.dropWhile (fun r => !decide (t ≤ r.confidence))).take 1,
       (l.dropWhile (fun r => !decide (t ≤ r.confidence))).drop 1) := by
  induction l with
  | nil => rfl
  | cons r rest ih =>
      by_cases hc : t ≤ r.confidence
      · simp [ModelClient.streamStep, hc]
      · simp [ModelClient.streamStep, hc, ih]

/-- C7: with a configured model, the streaming interpreter yields the
validated responses in stream order and stops consuming right after the first
yielded response whose confidence meets the threshold; the suffix after that
response is never consumed.  On confidences `[0.5, 0.86, 0.9]` with threshold
`0.8`, exactly the first two responses are yielded and the third is never
observed. -/
theorem C7_early_stop :
    (∀ model t (l : List InterpretResponse), model ≠ "" →
        ModelClient.stream model t l =
          (l.takeWhile (fun r => !decide (t ≤ r.confidence)) ++
             (l.dropWhile (fun r => !decide (t ≤ r.confidence))).take 1,
           (l.dropWhile (fun r => !decide (t ≤ r.confidence))).drop 1)) ∧
    (∀ model t (l : List InterpretResponse), model ≠ "" →
        (ModelClient.stream model t l).1 ++ (ModelClient.stream model t l).2 = l) ∧
    ModelClient.stream "gpt" (mkRat 4 5)
        [Examples.lowResponse, Examples.stopResponse, Examples.tailResponse] =
      ([Examples.lowResponse, Examples.stopResponse], [Examples.tailResponse]) := by
  have hmain : ∀ model t (l : List InterpretResponse), model ≠ "" →
      ModelClient.stream model t l =
        (l.takeWhile (fun r => !decide (t ≤ r.confidence)) ++
           (l.dropWhile (fun r => !decide (t ≤ r.confidence))).take 1,
         (l.dropWhile (fun r => !decide (t ≤ r.confidence))).drop 1) := by
    intro model t l hm
    have hempty : model.isEmpty = false := by
      cases he : model.isEmpty
      · rfl
      · exact absurd ((String.isEmpty_iff model).mp he) hm
    rw [ModelClient.stream, hempty]
    simpa using streamStep_characterization t l
  refine ⟨hmain, ?_, by rfl⟩
  intro model t l hm
  rw [hmain model t l hm]
  dsimp only
  rw [List.append_assoc, List.take_append_drop, List.takeWhile_append_dropWhile]

/-- Witness for C7: a configured model on the three-response stream. -/
theorem C7_early_stop_witness :
    ModelClient.stream "gpt" (mkRat 4 5)
        [Examples.lowResponse, Examples.stopResponse, Examples.tailResponse] =
      (([Examples.lowResponse, Examples.stopResponse,
          Examples.tailResponse].takeWhile
            (fun r => !decide (mkRat 4 5 ≤ r.confidence)) ++
          ([Examples.lowResponse, Examples.stopResponse,
            Examples.tailResponse].dropWhile
              (fun r => !decide (mkRat 4 5 ≤ r.confidence))).take 1),
       ([Examples.lowResponse, Examples.stopResponse,
         Examples.tailResponse].dropWhile
           (fun r => !decide (mkRat 4 5 ≤ r.confidence))).drop 1) :=
  C7_early_stop.1 "gpt" (mkRat 4 5)
    [Examples.lowResponse, Examples.stopResponse, Examples.tailResponse]
    (by decide)

/-- With repair disabled, `_coerce_to_response` never invokes the repair
capability. -/
theorem coerce_to_response_no_repair (raw : StreamingModel.RawCandidate)
    (repair : StreamingModel.RepairResult) :
    (StreamingModel.coerce_to_response raw repair false).2 = 0 := by
  cases raw with
  | resp r => simp [StreamingModel.coerce_to_response]
  | nonMapping v => simp [StreamingModel.coerce_to_response]
  | mapping fields =>
      simp only [StreamingModel.coerce_to_response]
      split <;> simp

/-- `_attempt_repair` makes exactly one repair attempt, re-validating any
repaired payload with repair disabled. -/
theorem attempt_repair_count (repair : StreamingModel.RepairResult) :
    (StreamingModel.attempt_repair repair).2 = 1 := by
  cases repair with
  | raises => simp [StreamingModel.attempt_repair]
  | noneResult => simp [StreamingModel.attempt_repair]
  | repaired candidate =>
      have h := coerce_to_response_no_repair candidate .raises
      rcases hc : StreamingModel.coerce_to_response candidate .raises false with
        ⟨res, cnt⟩
      rw [hc] at h
      simp only at h
      simp [StreamingModel.attempt_repair, hc, h]

/-- C9: a streamed candidate that fails schema validation triggers exactly
one repair attempt; the repaired payload is re-validated with repair
disabled; a candidate that still fails validation, or whose repair raises or
returns nothing, coerces to `None` and is dropped from the output stream —
never yielded. -/
theorem C9_bounded_repair :
    (∀ fields repair, validateInterpretResponse fields = none →
        StreamingModel.coerce_to_response (.mapping fields) repair true =
          StreamingModel.attempt_repair repair ∧
        (StreamingModel.coerce_to_response (.mapping fields) repair true).2 = 1) ∧
    (∀ raw repair,
        (StreamingModel.coerce_to_response raw repair false).2 = 0) ∧
    (∀ fields fields2, validateInterpretResponse fields = none →
        (StreamingModel.coerce_to_response (.mapping fields)
            (.repaired (.mapping fields2)) true).1 =
          validateInterpretResponse fields2) ∧
    (∀ fields, validateInterpretResponse fields = none →
        (StreamingModel.coerce_to_response (.mapping fields) .raises true).1 =
          none ∧
        (StreamingModel.coerce_to_response (.mapping fields) .noneResult
            true).1 = none) ∧
    (∀ (candidates :
          List (StreamingModel.RawCandidate × StreamingModel.RepairResult))
        (resp : InterpretResponse),
        resp ∈ StreamingModel.streamOutputs candidates ↔
          ∃ c ∈ candidates,
            (StreamingModel.coerce_to_response c.1 c.2 true).1 = some resp) := by
  have hstep : ∀ fields repair, validateInterpretResponse fields = none →
      StreamingModel.coerce_to_response (.mapping fields) repair true =
        StreamingModel.attempt_repair repair := by
    intro fields repair h
    unfold StreamingModel.coerce_to_response
    rw [h]
    rfl
  refine ⟨?_, coerce_to_response_no_repair, ?_, ?_, ?_⟩
  · intro fields repair h
    refine ⟨hstep fields repair h, ?_⟩
    rw [hstep fields repair h]
    exact attempt_repair_count repair
  · intro fields fields2 h
    rw [hstep fields (.repaired (.mapping fields2)) h]
    unfold StreamingModel.attempt_repair
    unfold StreamingModel.coerce_to_response
    cases hv : validateInterpretResponse fields2 <;> simp [hv]
  · intro fields h
    exact ⟨by rw [hstep fields .raises h]; simp [StreamingModel.attempt_repair],
      by rw [hstep fields .noneResult h]; simp [StreamingModel.attempt_repair]⟩
  · intro candidates resp
    simp [StreamingModel.streamOutputs, List.mem_filterMap]

/-- Witness for C9: a candidate missing its required confidence field fails
validation; with a repair that raises, the candidate is coerced to `None`
after exactly one repair attempt. -/
theorem C9_bounded_repair_witness :
    (StreamingModel.coerce_to_response (.mapping [("intent", .str "turn_on")])
        .raises true =
      StreamingModel.attempt_repair .raises ∧
    (StreamingModel.coerce_to_response (.mapping [("intent", .str "turn_on")])
        .raises true).2 = 1) ∧
    (StreamingModel.coerce_to_response (.mapping [("intent", .str "turn_on")])
        (.repaired (.mapping [("intent", .str "turn_on"),
          ("confidence", .num 1)])) true).1 =
      validateInterpretResponse [("intent", .str "turn_on"),
        ("confidence", .num 1)] :=
  ⟨C9_bounded_repair.1 [("intent", .str "turn_on")] .raises rfl,
   C9_bounded_repair.2.2.1 [("intent", .str "turn_on")]
     [("intent", .str "turn_on"), ("confidence", .num 1)] rfl⟩

namespace Conversation

mutual

/-- `JsonVal.beq` is reflexive. -/
theorem JsonVal.beq_refl : ∀ v : JsonVal, JsonVal.beq v v = true
  | .str s => by simp [JsonVal.beq]
  | .num q => by simp [JsonVal.beq]
  | .bool b => by simp [JsonVal.beq]
  | .null => rfl
  | .arr xs => by
      rw [JsonVal.beq]
      exact JsonVal.beqList_refl xs
  | .obj fs => by
      rw [JsonVal.beq]
      exact JsonVal.beqFields_refl fs

/-- `JsonVal.beqList` is reflexive. -/
theorem JsonVal.beqList_refl : ∀ l : List JsonVal, JsonVal.beqList l l = true
  | [] => rfl
  | x :: xs => by
      rw [JsonVal.beqList, JsonVal.beq_refl x, JsonVal.beqList_refl xs]
      rfl

/-- `JsonVal.beqFields` is reflexive. -/
theorem JsonVal.beqFields_refl :
    ∀ l : List (String × JsonVal), JsonVal.beqFields l l = true
  | [] => rfl
  | (k, v) :: xs => by
      rw [JsonVal.beqFields, JsonVal.beq_refl v, JsonVal.beqFields_refl xs]
      simp

end

/-- Token equality is reflexive. -/
theorem responseToken_beq_self (t : ResponseToken) : (t == t) = true := by
  show ResponseToken.beq t t = true
  simp [ResponseToken.beq, JsonVal.beqFields_refl]

/-- `dedupe_get` misses exactly when no entry's key matches the token. -/
theorem dedupe_get_eq_none_iff (m : DedupeMap) (tok : ResponseToken) :
    dedupe_get m tok = none ↔ ∀ e ∈ m, (e.1 == tok) = false := by
  induction m with
  | nil => simp [dedupe_get]
  | cons e rest ih =>
      unfold dedupe_get
      by_cases he : (e.1 == tok) = true
      · simp [he]
      · simp only [Bool.not_eq_true] at he
        simp [he, ih]

/-- A `dedupe_get` hit comes from a matching entry of the map. -/
theorem dedupe_get_some_mem (m : DedupeMap) (tok : ResponseToken) (ts : ℚ)
    (h : dedupe_get m tok = some ts) :
    ∃ e ∈ m, (e.1 == tok) = true ∧ e.2 = ts := by
  induction m with
  | nil => simp [dedupe_get] at h
  | cons e rest ih =>
      unfold dedupe_get at h
      split at h
      · exact ⟨e, by simp, by assumption, by injection h⟩
      · obtain ⟨e', he', hm, hv⟩ := ih h
        exact ⟨e', by simp [he'], hm, hv⟩

/-- If every matching entry of the map carries value `v` and a matching entry
exists, `dedupe_get` returns `v`. -/
theorem dedupe_get_of_uniform (m : DedupeMap) (tok : ResponseToken) (v : ℚ)
    (huniform : ∀ e ∈ m, (e.1 == tok) = true → e.2 = v)
    (hexists : ∃ e ∈ m, (e.1 == tok) = true) :
    dedupe_get m tok = some v := by
  induction m with
  | nil => simp at hexists
  | cons e rest ih =>
      unfold dedupe_get
      by_cases he : (e.1 == tok) = true
      · rw [if_pos he, huniform e (by simp) he]
      · rw [if_neg he]
        refine ih (fun x hx hm => huniform x (by simp [hx]) hm) ?_
        obtain ⟨e', he', hm⟩ := hexists
        rcases List.mem_cons.mp he' with rfl | hrest
        · exact absurd hm he
        · exact ⟨e', hrest, hm⟩

/-- After `self._dedupe[token] = v`, every matching entry carries `v`. -/
theorem dedupe_set_uniform (m : DedupeMap) (tok : ResponseToken) (v : ℚ) :
    ∀ e ∈ dedupe_set m tok v, (e.1 == tok) = true → e.2 = v := by
  intro e he hm
  unfold dedupe_set at he
  split at he
  · obtain ⟨x, hx, hmap⟩ := List.mem_map.mp he
    by_cases hxk : (x.1 == tok) = true
    · rw [if_pos hxk] at hmap
      rw [← hmap]
    · rw [if_neg hxk] at hmap
      rw [← hmap] at hm
      exact absurd hm hxk
  · rcases List.mem_append.mp he with hin | hlast
    · rename_i hany
      have : (List.any m fun p => p.1 == tok) = true :=
        List.any_eq_true.mpr ⟨e, hin, hm⟩
      exact absurd this hany
    · simp at hlast
      rw [hlast]

/-- After `self._dedupe[token] = v`, a matching entry with value `v` exists. -/
theorem dedupe_set_has (m : DedupeMap) (tok : ResponseToken) (v : ℚ) :
    ∃ e ∈ dedupe_set m tok v, (e.1 == tok) = true ∧ e.2 = v := by
  unfold dedupe_set
  split
  · rename_i hany
    obtain ⟨x, hx, hxk⟩ := List.any_eq_true.mp hany
    refine ⟨(x.1, v), List.mem_map.mpr ⟨x, hx, by rw [if_pos hxk]⟩, hxk, rfl⟩
  · exact ⟨(tok, v), List.mem_append.mpr (Or.inr (by simp)),
      responseToken_beq_self tok, rfl⟩

/-- Membership in the pruned map, for a positive window. -/
theorem mem_prune_dedupe (m : DedupeMap) (current window : ℚ)
    (e : ResponseToken × ℚ) (hw : 0 < window) :
    e ∈ prune_dedupe m current window ↔
      e ∈ m ∧ current - e.2 < window := by
  unfold prune_dedupe
  rw [if_neg (not_le.mpr hw)]
  simp [List.mem_filter]

/-- Evaluation of `async_handle` when every gate before execution passes:
the call reaches the executor and its outcome is decided by the executor
alone. -/
theorem async_handle_gates_pass
    (options : Options) (guardrails : GuardrailBundle) (dedupe0 : DedupeMap)
    (hour : ℤ) (response : InterpretResponse) (signals : List String)
    (execResult : ExecResult) (t0 t1 t2 : ℚ) (u : String)
    (hnight : night_mode_active options hour = false)
    (hdis : guardrails.is_disabled response.intent = false)
    (hth : ((guardrails.intent_config response.intent).confidence_threshold).any
        (fun t => decide (response.confidence < t)) = false)
    (hcg : confidence_blocked response options = false)
    (hdup : (decide (0 < effective_window guardrails options response.intent) &&
        is_recent_duplicate
          (prune_dedupe dedupe0 t1
            (effective_window guardrails options response.intent))
          (response_token response) t1
          (effective_window guardrails options response.intent)) = false)
    (hmiss : missing_secondary_signals response signals = [])
    (hhours : ((guardrails.intent_config response.intent).dangerous &&
        ((guardrails.intent_config response.intent).allowed_hours).any
          (fun h => !within_allowed_hours h hour)) = false)
    (hver : ((guardrails.intent_config response.intent).dangerous &&
        !has_verification_flags response.params) = false) :
    async_handle options guardrails dedupe0 hour response signals execResult
        t0 t1 t2 u =
      match execResult with
      | .handlingError msg =>
          executor_failure_result
            (prune_dedupe dedupe0 t1
              (effective_window guardrails options response.intent))
            u response t0 t2
            (if msg.isEmpty then "Intent execution failed."
             else "Intent execution failed: " ++ msg)
      | .unexpectedError =>
          executor_failure_result
            (prune_dedupe dedupe0 t1
              (effective_window guardrails options response.intent))
            u response t0 t2
            "Intent execution failed due to an unexpected error."
      | .ok =>
          { result := ⟨true, "Intent executed successfully."⟩
            adapterCalled := true
            telemetry := [⟨u, response.qdrant_terms, response,
              max 0 ((t2 - t0) * 1000), "executed"⟩]
            guardrailLogs := [⟨"intent_executed", "executed"⟩]
            dedupe :=
              if decide (0 < effective_window guardrails options
                  response.intent) = true then
                dedupe_set
                  (prune_dedupe dedupe0 t1
                    (effective_window guardrails options response.intent))
                  (response_token response) t1
              else
                prune_dedupe dedupe0 t1
                  (effective_window guardrails options response.intent)
            outcome := .executed } := by
  simp only [effective_window] at hdup ⊢
  unfold async_handle
  simp [hnight, hdis, hth, hcg, hdup, hmiss, hhours, hver]

/-- Evaluation of `async_handle` when the duplicate-suppression gate fires. -/
theorem async_handle_duplicate_blocked
    (options : Options) (guardrails : GuardrailBundle) (dedupe0 : DedupeMap)
    (hour : ℤ) (response : InterpretResponse) (signals : List String)
    (execResult : ExecResult) (t0 t1 t2 : ℚ) (u : String)
    (hnight : night_mode_active options hour = false)
    (hdis : guardrails.is_disabled response.intent = false)
    (hth : ((guardrails.intent_config response.intent).confidence_threshold).any
        (fun t => decide (response.confidence < t)) = false)
    (hcg : confidence_blocked response options = false)
    (hdup : (decide (0 < effective_window guardrails options response.intent) &&
        is_recent_duplicate
          (prune_dedupe dedupe0 t1
            (effective_window guardrails options response.intent))
          (response_token response) t1
          (effective_window guardrails options response.intent)) = true) :
    async_handle options guardrails dedupe0 hour response signals execResult
        t0 t1 t2 u =
      guardrail_block
        (prune_dedupe dedupe0 t1
          (effective_window guardrails options response.intent))
        "Duplicate command suppressed." "duplicate_suppressed" := by
  simp only [effective_window] at hdup ⊢
  unfold async_handle
  simp [hnight, hdis, hth, hcg, hdup]

/-- Evaluation of `async_handle` when the disabled-intent gate fires. -/
theorem async_handle_disabled_blocked
    (options : Options) (guardrails : GuardrailBundle) (dedupe0 : DedupeMap)
    (hour : ℤ) (response : InterpretResponse) (signals : List String)
    (execResult : ExecResult) (t0 t1 t2 : ℚ) (u : String)
    (hnight : night_mode_active options hour = false)
    (hdis : guardrails.is_disabled response.intent = true) :
    async_handle options guardrails dedupe0 hour response signals execResult
        t0 t1 t2 u =
      guardrail_block dedupe0 "This intent is disabled by configuration."
        "intent_disabled" := by
  unfold async_handle
  simp [hnight, hdis]

/-- Evaluation of `async_handle` when the per-intent threshold gate fires. -/
theorem async_handle_threshold_blocked
    (options : Options) (guardrails : GuardrailBundle) (dedupe0 : DedupeMap)
    (hour : ℤ) (response : InterpretResponse) (signals : List String)
    (execResult : ExecResult) (t0 t1 t2 : ℚ) (u : String)
    (hnight : night_mode_active options hour = false)
    (hdis : guardrails.is_disabled response.intent = false)
    (hth : ((guardrails.intent_config response.intent).confidence_threshold).any
        (fun t => decide (response.confidence < t)) = true) :
    async_handle options guardrails dedupe0 hour response signals execResult
        t0 t1 t2 u =
      guardrail_block dedupe0 "Confidence too low to execute safely."
        "intent_threshold" := by
  unfold async_handle
  simp [hnight, hdis, hth]

/-- Evaluation of `async_handle` when the global confidence gate fires. -/
theorem async_handle_confidence_blocked
    (options : Options) (guardrails : GuardrailBundle) (dedupe0 : DedupeMap)
    (hour : ℤ) (response : InterpretResponse) (signals : List String)
    (execResult : ExecResult) (t0 t1 t2 : ℚ) (u : String)
    (hnight : night_mode_active options hour = false)
    (hdis : guardrails.is_disabled response.intent = false)
    (hth : ((guardrails.intent_config response.intent).confidence_threshold).any
        (fun t => decide (response.confidence < t)) = false)
    (hcg : confidence_blocked response options = true) :
    async_handle options guardrails dedupe0 hour response signals execResult
        t0 t1 t2 u =
      guardrail_block dedupe0 "Confidence too low to execute safely."
        "confidence_gate" := by
  unfold async_handle
  simp [hnight, hdis, hth, hcg]

/-- Evaluation of `async_handle` when the secondary-signal gate fires. -/
theorem async_handle_missing_signals_blocked
    (options : Options) (guardrails : GuardrailBundle) (dedupe0 : DedupeMap)
    (hour : ℤ) (response : InterpretResponse) (signals : List String)
    (execResult : ExecResult) (t0 t1 t2 : ℚ) (u : String)
    (hnight : night_mode_active options hour = false)
    (hdis : guardrails.is_disabled response.intent = false)
    (hth : ((guardrails.intent_config response.intent).confidence_threshold).any
        (fun t => decide (response.confidence < t)) = false)
    (hcg : confidence_blocked response options = false)
    (hdup : (decide (0 < effective_window guardrails options response.intent) &&
        is_recent_duplicate
          (prune_dedupe dedupe0 t1
            (effective_window guardrails options response.intent))
          (response_token response) t1
          (effective_window guardrails options response.intent)) = false)
    (hmiss : missing_secondary_signals response signals ≠ []) :
    async_handle options guardrails dedupe0 hour response signals execResult
        t0 t1 t2 u =
      guardrail_block
        (prune_dedupe dedupe0 t1
          (effective_window guardrails options response.intent))
        (format_secondary_signal_message
          (missing_secondary_signals response signals))
        "missing_secondary_signals" := by
  simp only [effective_window] at hdup ⊢
  unfold async_handle
  simp [hnight, hdis, hth, hcg, hdup, hmiss]

/-- Evaluation of `async_handle` when the dangerous-intent allowed-hours gate
fires. -/
theorem async_handle_after_hours_blocked
    (options : Options) (guardrails : GuardrailBundle) (dedupe0 : DedupeMap)
    (hour : ℤ) (response : InterpretResponse) (signals : List String)
    (execResult : ExecResult) (t0 t1 t2 : ℚ) (u : String)
    (hnight : night_mode_active options hour = false)
    (hdis : guardrails.is_disabled response.intent = false)
    (hth : ((guardrails.intent_config response.intent).confidence_threshold).any
        (fun t => decide (response.confidence < t)) = false)
    (hcg : confidence_blocked response options = false)
    (hdup : (decide (0 < effective_window guardrails options response.intent) &&
        is_recent_duplicate
          (prune_dedupe dedupe0 t1
            (effective_window guardrails options response.intent))
          (response_token response) t1
          (effective_window guardrails options response.intent)) = false)
    (hmiss : missing_secondary_signals response signals = [])
    (hhours : ((guardrails.intent_config response.intent).dangerous &&
        ((guardrails.intent_config response.intent).allowed_hours).any
          (fun h => !within_allowed_hours h hour)) = true) :
    async_handle options guardrails dedupe0 hour response signals execResult
        t0 t1 t2 u =
      guardrail_block
        (prune_dedupe dedupe0 t1
          (effective_window guardrails options response.intent))
        "Intent is restricted to allowed hours."
        "dangerous_intent_after_hours" := by
  simp only [effective_window] at hdup ⊢
  unfold async_handle
  simp [hnight, hdis, hth, hcg, hdup, hmiss, hhours]

/-- Evaluation of `async_handle` when the dangerous-intent verification gate
fires. -/
theorem async_handle_verification_blocked
    (options : Options) (guardrails : GuardrailBundle) (dedupe0 : DedupeMap)
    (hour : ℤ) (response : InterpretResponse) (signals : List String)
    (execResult : ExecResult) (t0 t1 t2 : ℚ) (u : String)
    (hnight : night_mode_active options hour = false)
    (hdis : guardrails.is_disabled response.intent = false)
    (hth : ((guardrails.intent_config response.intent).confidence_threshold).any
        (fun t => decide (response.confidence < t)) = false)
    (hcg : confidence_blocked response options = false)
    (hdup : (decide (0 < effective_window guardrails options response.intent) &&
        is_recent_duplicate
          (prune_dedupe dedupe0 t1
            (effective_window guardrails options response.intent))
          (response_token response) t1
          (effective_window guardrails options response.intent)) = false)
    (hmiss : missing_secondary_signals response signals = [])
    (hhours : ((guardrails.intent_config response.intent).dangerous &&
        ((guardrails.intent_config response.intent).allowed_hours).any
          (fun h => !within_allowed_hours h hour)) = false)
    (hver : ((guardrails.intent_config response.intent).dangerous &&
        !has_verification_flags response.params) = true) :
    async_handle options guardrails dedupe0 hour response signals execResult
        t0 t1 t2 u =
      guardrail_block
        (prune_dedupe dedupe0 t1
          (effective_window guardrails options response.intent))
        "Additional verification required before executing this intent."
        "dangerous_intent_missing_verification" := by
  simp only [effective_window] at hdup ⊢
  unfold async_handle
  simp [hnight, hdis, hth, hcg, hdup, hmiss, hhours, hver]

/-- Evaluation of `async_handle` when the night-mode gate fires: the call
returns before the adapter is contacted and records nothing. -/
theorem async_handle_night_blocked
    (options : Options) (guardrails : GuardrailBundle) (dedupe0 : DedupeMap)
    (hour : ℤ) (response : InterpretResponse) (signals : List String)
    (execResult : ExecResult) (t0 t1 t2 : ℚ) (u : String)
    (h : night_mode_active options hour = true) :
    async_handle options guardrails dedupe0 hour response signals execResult
        t0 t1 t2 u =
      { result := ⟨false, "Night mode is active. Try again later."⟩
        adapterCalled := false
        telemetry := []
        guardrailLogs := [⟨"night_mode_active", "blocked"⟩]
        dedupe := dedupe0
        outcome := .blocked "night_mode_active" } := by
  unfold async_handle
  simp [h]

/-- C5: with night mode enabled over the wrap-around window 23 to 6, the
blackout is active at hours 23 and 3 and inactive at hour 12; whenever night
mode is active, `async_handle` blocks before the adapter is contacted and
records no telemetry event. -/
theorem C5_night_mode_wraparound :
    night_mode_active Examples.nightOptions 23 = true ∧
    night_mode_active Examples.nightOptions 3 = true ∧
    night_mode_active Examples.nightOptions 12 = false ∧
    (∀ options guardrails dedupe0 hour response signals execResult
        (t0 t1 t2 : ℚ) u,
        night_mode_active options hour = true →
        async_handle options guardrails dedupe0 hour response signals
            execResult t0 t1 t2 u =
          { result := ⟨false, "Night mode is active. Try again later."⟩
            adapterCalled := false
            telemetry := []
            guardrailLogs := [⟨"night_mode_active", "blocked"⟩]
            dedupe := dedupe0
            outcome := .blocked "night_mode_active" }) := by
  refine ⟨by decide, by decide, by decide, ?_⟩
  intro options guardrails dedupe0 hour response signals execResult t0 t1 t2 u h
  exact async_handle_night_blocked options guardrails dedupe0 hour response
    signals execResult t0 t1 t2 u h

/-- Witness for C5: blocked before the adapter at hour 23 with an empty
telemetry trace. -/
theorem C5_night_mode_wraparound_witness :
    async_handle Examples.nightOptions {} [] 23 Examples.okResponse []
        .ok 0 1 2 "turn on the light" =
      { result := ⟨false, "Night mode is active. Try again later."⟩
        adapterCalled := false
        telemetry := []
        guardrailLogs := [⟨"night_mode_active", "blocked"⟩]
        dedupe := []
        outcome := .blocked "night_mode_active" } :=
  C5_night_mode_wraparound.2.2.2 Examples.nightOptions {} [] 23
    Examples.okResponse [] .ok 0 1 2 "turn on the light" (by decide)

/-- C10: the two clock gates treat equal-endpoint windows oppositely — night
mode with `start_hour = end_hour` is an all-day blackout (`async_handle`
blocks at every hour), while a dangerous intent whose allowed-hours pair has
equal endpoints is permitted at every hour (the after-hours gate can never
fire for it). -/
theorem C10_equal_endpoint_windows :
    (∀ (options : Options) (hour : ℤ), options.night_mode_enabled = true →
        options.night_mode_start_hour = options.night_mode_end_hour →
        night_mode_active options hour = true) ∧
    (∀ (startEnd hour : ℤ),
        within_allowed_hours (startEnd, startEnd) hour = true) ∧
    (∀ options guardrails dedupe0 (hour : ℤ) response signals execResult
        (t0 t1 t2 : ℚ) u,
        options.night_mode_enabled = true →
        options.night_mode_start_hour = options.night_mode_end_hour →
        (async_handle options guardrails dedupe0 hour response signals
            execResult t0 t1 t2 u).outcome = .blocked "night_mode_active") ∧
    (∀ options guardrails dedupe0 (hour : ℤ) response signals execResult
        (t0 t1 t2 : ℚ) u (startEnd : ℤ),
        (guardrails.intent_config response.intent).allowed_hours =
          some (startEnd, startEnd) →
        (async_handle options guardrails dedupe0 hour response signals
            execResult t0 t1 t2 u).outcome ≠
          .blocked "dangerous_intent_after_hours") := by
  have hnight : ∀ (options : Options) (hour : ℤ),
      options.night_mode_enabled = true →
      options.night_mode_start_hour = options.night_mode_end_hour →
      night_mode_active options hour = true := by
    intro options hour h1 h2
    simp [night_mode_active, h1, h2]
  refine ⟨hnight, ?_, ?_, ?_⟩
  · intro startEnd hour
    simp [within_allowed_hours]
  · intro options guardrails dedupe0 hour response signals execResult
      t0 t1 t2 u h1 h2
    rw [async_handle_night_blocked options guardrails dedupe0 hour response
      signals execResult t0 t1 t2 u (hnight options hour h1 h2)]
  · intro options guardrails dedupe0 hour response signals execResult
      t0 t1 t2 u startEnd hh
    unfold async_handle
    simp only [hh]
    simp [within_allowed_hours]
    repeat' split
    all_goals simp [guardrail_block, executor_failure_result]

/-- Witness for C10 at an all-day night window and an equal-endpoint
allowed-hours pair. -/
theorem C10_equal_endpoint_windows_witness :
    night_mode_active Examples.allDayNightOptions 12 = true ∧
    within_allowed_hours (7, 7) 22 = true ∧
    (async_handle Examples.allDayNightOptions {} [] 12 Examples.okResponse []
        .ok 0 1 2 "u").outcome = .blocked "night_mode_active" ∧
    (async_handle Examples.plainOptions
          { dangerous_intents := ["turn_on"],
            allowed_hours := [("turn_on", (7, 7))] }
          [] 22 Examples.okResponse [] .ok 0 1 2 "u").outcome ≠
      .blocked "dangerous_intent_after_hours" :=
  ⟨C10_equal_endpoint_windows.1 Examples.allDayNightOptions 12 rfl rfl,
   C10_equal_endpoint_windows.2.1 7 22,
   C10_equal_endpoint_windows.2.2.1 Examples.allDayNightOptions {} [] 12
     Examples.okResponse [] .ok 0 1 2 "u" rfl rfl,
   C10_equal_endpoint_windows.2.2.2 Examples.plainOptions
     { dangerous_intents := ["turn_on"], allowed_hours := [("turn_on", (7, 7))] }
     [] 22 Examples.okResponse [] .ok 0 1 2 "u" 7 (by decide)⟩

/-- C1 as stated is violated by the code: with a per-intent override that the
response's confidence meets (0.5 ≤ 0.6), the enabled global gate at
threshold 0.8 still blocks the evaluation with reason `confidence_gate`. -/
theorem C1_counterexample :
    Examples.gateOptions.enable_confidence_gate = true ∧
    (Examples.overrideBundle.intent_config
        Examples.midResponse.intent).confidence_threshold =
      some (mkRat 1 2) ∧
    mkRat 1 2 ≤ Examples.midResponse.confidence ∧
    Examples.midResponse.confidence <
      Examples.gateOptions.confidence_threshold ∧
    (async_handle Examples.gateOptions Examples.overrideBundle [] 12
        Examples.midResponse [] .ok 0 1 2 "turn on the light").outcome =
      .blocked "confidence_gate" := by
  decide

/-- C1 (amended): the global confidence gate is applied regardless of
per-intent overrides — whenever the gate is enabled and the confidence is
below the global threshold, the call blocks with reason `confidence_gate`,
even when an override exists and the confidence meets it. -/
theorem C1_amended
    (options : Options) (guardrails : GuardrailBundle) (dedupe0 : DedupeMap)
    (hour : ℤ) (response : InterpretResponse) (signals : List String)
    (execResult : ExecResult) (t0 t1 t2 : ℚ) (u : String) (tOv : ℚ)
    (hnight : night_mode_active options hour = false)
    (hdis : guardrails.is_disabled response.intent = false)
    (hov : (guardrails.intent_config response.intent).confidence_threshold =
      some tOv)
    (hmet : tOv ≤ response.confidence)
    (hgate : options.enable_confidence_gate = true)
    (hlow : response.confidence < options.confidence_threshold) :
    async_handle options guardrails dedupe0 hour response signals execResult
        t0 t1 t2 u =
      guardrail_block dedupe0 "Confidence too low to execute safely."
        "confidence_gate" := by
  have hth : ((guardrails.intent_config response.intent).confidence_threshold).any
      (fun t => decide (response.confidence < t)) = false := by
    rw [hov]
    simp [not_lt.mpr hmet]
  have hcg : confidence_blocked response options = true := by
    simp [confidence_blocked, hgate, hlow]
  unfold async_handle
  simp [hnight, hdis, hth, hcg]

/-- Witness for C1 (amended): the counterexample configuration blocks with
reason `confidence_gate`. -/
theorem C1_amended_witness :
    async_handle Examples.gateOptions Examples.overrideBundle [] 12
        Examples.midResponse [] .ok 0 1 2 "turn on the light" =
      guardrail_block [] "Confidence too low to execute safely."
        "confidence_gate" :=
  C1_amended Examples.gateOptions Examples.overrideBundle [] 12
    Examples.midResponse [] .ok 0 1 2 "turn on the light" (mkRat 1 2)
    (by decide) (by decide) (by decide) (by decide) (by decide) (by decide)

/-- C2 as stated is violated by the code: a call that terminates in a blocked
outcome (here the confidence gate) records no telemetry event at all — the
block only emits a guardrail log entry. -/
theorem C2_counterexample :
    (async_handle Examples.gateOptions Examples.overrideBundle [] 12
        Examples.midResponse [] .ok 0 1 2 "turn on the light").outcome =
      .blocked "confidence_gate" ∧
    (async_handle Examples.gateOptions Examples.overrideBundle [] 12
        Examples.midResponse [] .ok 0 1 2 "turn on the light").telemetry =
      [] := by
  exact ⟨by decide, by rfl⟩

/-- C2 (amended): telemetry events are recorded only for `executed` and
`failed` outcomes — exactly one event per such call, tagged with the outcome;
a blocked call appends no telemetry event and instead emits one guardrail log
entry tagged `blocked`; every recorded event lands at the tail of the
`TelemetryRecorder` ring buffer. -/
theorem C2_amended
    (options : Options) (guardrails : GuardrailBundle) (dedupe0 : DedupeMap)
    (hour : ℤ) (response : InterpretResponse) (signals : List String)
    (execResult : ExecResult) (t0 t1 t2 : ℚ) (u : String) :
    ((async_handle options guardrails dedupe0 hour response signals execResult
          t0 t1 t2 u).telemetry.map (fun e => e.outcome) =
      match (async_handle options guardrails dedupe0 hour response signals
          execResult t0 t1 t2 u).outcome with
      | .blocked _ => []
      | .executed => ["executed"]
      | .failed => ["failed"]) ∧
    (∀ reason,
        (async_handle options guardrails dedupe0 hour response signals
            execResult t0 t1 t2 u).outcome = .blocked reason →
        (async_handle options guardrails dedupe0 hour response signals
            execResult t0 t1 t2 u).telemetry = [] ∧
        (async_handle options guardrails dedupe0 hour response signals
            execResult t0 t1 t2 u).guardrailLogs = [⟨reason, "blocked"⟩]) ∧
    (∀ cap buf e,
        (TelemetryRecorder.record_event cap buf e).getLast? = some e) := by
  have ring : ∀ cap buf e,
      (TelemetryRecorder.record_event cap buf e).getLast? = some e := by
    intro cap buf e
    unfold TelemetryRecorder.record_event
    have hlen : (buf ++ [e]).length - max 1 cap ≤ buf.length := by
      simp
    rw [List.drop_append_of_le_length hlen]
    simp
  refine ⟨?_, ?_, ring⟩ <;>
  · first
    | (by_cases h1 : night_mode_active options hour = true
       case pos =>
         rw [async_handle_night_blocked options guardrails dedupe0 hour
           response signals execResult t0 t1 t2 u h1]
         first
         | rfl
         | exact fun reason hr => by cases hr; exact ⟨rfl, rfl⟩
       case neg =>
         rw [Bool.not_eq_true] at h1
         by_cases h2 : guardrails.is_disabled response.intent = true
         case pos =>
           rw [async_handle_disabled_blocked options guardrails dedupe0 hour
             response signals execResult t0 t1 t2 u h1 h2]
           first
           | rfl
           | exact fun reason hr => by cases hr; exact ⟨rfl, rfl⟩
         case neg =>
           rw [Bool.not_eq_true] at h2
           by_cases h3 : ((guardrails.intent_config
               response.intent).confidence_threshold).any
               (fun t => decide (response.confidence < t)) = true
           case pos =>
             rw [async_handle_threshold_blocked options guardrails dedupe0
               hour response signals execResult t0 t1 t2 u h1 h2 h3]
             first
             | rfl
             | exact fun reason hr => by cases hr; exact ⟨rfl, rfl⟩
           case neg =>
             rw [Bool.not_eq_true] at h3
             by_cases h4 : confidence_blocked response options = true
             case pos =>
               rw [async_handle_confidence_blocked options guardrails dedupe0
                 hour response signals execResult t0 t1 t2 u h1 h2 h3 h4]
               first
               | rfl
               | exact fun reason hr => by cases hr; exact ⟨rfl, rfl⟩
             case neg =>
               rw [Bool.not_eq_true] at h4
               by_cases h5 : (decide (0 < effective_window guardrails options
                     response.intent) &&
                   is_recent_duplicate
                     (prune_dedupe dedupe0 t1
                       (effective_window guardrails options response.intent))
                     (response_token response) t1
                     (effective_window guardrails options
                       response.intent)) = true
               case pos =>
                 rw [async_handle_duplicate_blocked options guardrails dedupe0
                   hour response signals execResult t0 t1 t2 u h1 h2 h3 h4 h5]
                 first
                 | rfl
                 | exact fun reason hr => by cases hr; exact ⟨rfl, rfl⟩
               case neg =>
                 rw [Bool.not_eq_true] at h5
                 by_cases h6 : missing_secondary_signals response signals = []
                 case neg =>
                   rw [async_handle_missing_signals_blocked options guardrails
                     dedupe0 hour response signals execResult t0 t1 t2 u
                     h1 h2 h3 h4 h5 h6]
                   first
                   | rfl
                   | exact fun reason hr => by cases hr; exact ⟨rfl, rfl⟩
                 case pos =>
                   by_cases h7 : ((guardrails.intent_config
                         response.intent).dangerous &&
                       ((guardrails.intent_config
                         response.intent).allowed_hours).any
                         (fun h => !within_allowed_hours h hour)) = true
                   case pos =>
                     rw [async_handle_after_hours_blocked options guardrails
                       dedupe0 hour response signals execResult t0 t1 t2 u
                       h1 h2 h3 h4 h5 h6 h7]
                     first
                     | rfl
                     | exact fun reason hr => by cases hr; exact ⟨rfl, rfl⟩
                   case neg =>
                     rw [Bool.not_eq_true] at h7
                     by_cases h8 : ((guardrails.intent_config
                           response.intent).dangerous &&
                         !has_verification_flags response.params) = true
                     case pos =>
                       rw [async_handle_verification_blocked options guardrails
                         dedupe0 hour response signals execResult t0 t1 t2 u
                         h1 h2 h3 h4 h5 h6 h7 h8]
                       first
                       | rfl
                       | exact fun reason hr => by cases hr; exact ⟨rfl, rfl⟩
                     case neg =>
                       rw [Bool.not_eq_true] at h8
                       rw [async_handle_gates_pass options guardrails dedupe0
                         hour response signals execResult t0 t1 t2 u
                         h1 h2 h3 h4 h5 h6 h7 h8]
                       cases execResult with
                       | ok =>
                           first
                           | rfl
                           | exact fun reason hr => nomatch hr
                       | handlingError msg =>
                           first
                           | rfl
                           | exact fun reason hr => nomatch hr
                       | unexpectedError =>
                           first
                           | rfl
                           | exact fun reason hr => nomatch hr)

/-- Witness for C2 (amended): the blocked confidence-gate call has an empty
telemetry trace and one blocked guardrail log entry. -/
theorem C2_amended_witness :
    (async_handle Examples.gateOptions Examples.overrideBundle [] 12
        Examples.midResponse [] .ok 0 1 2 "turn on the light").telemetry =
      [] ∧
    (async_handle Examples.gateOptions Examples.overrideBundle [] 12
        Examples.midResponse [] .ok 0 1 2 "turn on the light").guardrailLogs =
      [⟨"confidence_gate", "blocked"⟩] :=
  (C2_amended Examples.gateOptions Examples.overrideBundle [] 12
      Examples.midResponse [] .ok 0 1 2 "turn on the light").2.1
    "confidence_gate" (by decide)

/-- `dict.get` after `dict.__setitem__` with the same token. -/
theorem dedupe_get_set_self (m : DedupeMap) (tok : ResponseToken) (v : ℚ) :
    dedupe_get (dedupe_set m tok v) tok = some v := by
  refine dedupe_get_of_uniform _ _ _ (dedupe_set_uniform m tok v) ?_
  obtain ⟨e, he, hm, _⟩ := dedupe_set_has m tok v
  exact ⟨e, he, hm⟩

/-- A token set at timestamp `v` survives pruning at `c` exactly while its
age stays below the window; here the surviving case. -/
theorem dedupe_get_prune_set (m : DedupeMap) (tok : ResponseToken)
    (v c w : ℚ) (hw : 0 < w) (hkeep : c - v < w) :
    dedupe_get (prune_dedupe (dedupe_set m tok v) c w) tok = some v := by
  apply dedupe_get_of_uniform
  · intro e he hm
    exact dedupe_set_uniform m tok v e
      ((mem_prune_dedupe _ _ _ _ hw).mp he).1 hm
  · obtain ⟨e, he, hm, hv⟩ := dedupe_set_has m tok v
    refine ⟨e, (mem_prune_dedupe _ _ _ _ hw).mpr ⟨he, ?_⟩, hm⟩
    rw [hv]
    exact hkeep

/-- A token set at timestamp `v` is pruned once its age reaches the window. -/
theorem dedupe_get_prune_set_stale (m : DedupeMap) (tok : ResponseToken)
    (v c w : ℚ) (hw : 0 < w) (hstale : ¬ c - v < w) :
    dedupe_get (prune_dedupe (dedupe_set m tok v) c w) tok = none := by
  cases hget : dedupe_get (prune_dedupe (dedupe_set m tok v) c w) tok with
  | none => rfl
  | some ts =>
      obtain ⟨e, he, hm, _⟩ := dedupe_get_some_mem _ _ _ hget
      have h1 := (mem_prune_dedupe _ _ _ _ hw).mp he
      have h2 := dedupe_set_uniform m tok v e h1.1 hm
      rw [h2] at h1
      exact absurd h1.2 hstale

/-- A token absent from the map stays absent after any filtering pass. -/
theorem dedupe_get_filter_none (m : DedupeMap) (tok : ResponseToken)
    (p : ResponseToken × ℚ → Bool) (h : dedupe_get m tok = none) :
    dedupe_get (m.filter p) tok = none := by
  rw [dedupe_get_eq_none_iff] at h ⊢
  intro e he
  exact h e (List.mem_filter.mp he).1

/-- If the duplicate check on the freshly pruned map misses, the token has no
entry there at all: every surviving entry is recent by construction. -/
theorem dedupe_get_prune_none_of_not_recent (m : DedupeMap)
    (tok : ResponseToken) (t1 w : ℚ) (hw : 0 < w)
    (h : is_recent_duplicate (prune_dedupe m t1 w) tok t1 w = false) :
    dedupe_get (prune_dedupe m t1 w) tok = none := by
  cases hget : dedupe_get (prune_dedupe m t1 w) tok with
  | none => rfl
  | some ts =>
      obtain ⟨e, he, hm, hv⟩ := dedupe_get_some_mem _ _ _ hget
      have hmem := (mem_prune_dedupe m t1 w e hw).mp he
      unfold is_recent_duplicate at h
      rw [hget] at h
      have hrecent : t1 - ts < w := hv ▸ hmem.2
      simp [hrecent] at h

/-- C8: when every gate passes and the executor raises (a typed
`IntentHandlingError` or any other exception), the call returns a failure
`ConversationResult` instead of propagating, records exactly one telemetry
event with outcome `failed`, and leaves the dedupe map without the response's
token — so an immediate retry of the same command is never blocked as a
duplicate. -/
theorem C8_executor_failure_atomicity
    (options : Options) (guardrails : GuardrailBundle) (dedupe0 : DedupeMap)
    (hour : ℤ) (response : InterpretResponse) (signals : List String)
    (execResult : ExecResult) (t0 t1 t2 : ℚ) (u : String)
    (hnight : night_mode_active options hour = false)
    (hdis : guardrails.is_disabled response.intent = false)
    (hth : ((guardrails.intent_config response.intent).confidence_threshold).any
        (fun t => decide (response.confidence < t)) = false)
    (hcg : confidence_blocked response options = false)
    (hdup : (decide (0 < effective_window guardrails options response.intent) &&
        is_recent_duplicate
          (prune_dedupe dedupe0 t1
            (effective_window guardrails options response.intent))
          (response_token response) t1
          (effective_window guardrails options response.intent)) = false)
    (hmiss : missing_secondary_signals response signals = [])
    (hhours : ((guardrails.intent_config response.intent).dangerous &&
        ((guardrails.intent_config response.intent).allowed_hours).any
          (fun h => !within_allowed_hours h hour)) = false)
    (hver : ((guardrails.intent_config response.intent).dangerous &&
        !has_verification_flags response.params) = false)
    (hfail : execResult ≠ .ok) :
    (async_handle options guardrails dedupe0 hour response signals execResult
        t0 t1 t2 u).result.success = false ∧
    (async_handle options guardrails dedupe0 hour response signals execResult
        t0 t1 t2 u).outcome = .failed ∧
    (async_handle options guardrails dedupe0 hour response signals execResult
        t0 t1 t2 u).telemetry.map (fun e => e.outcome) = ["failed"] ∧
    (async_handle options guardrails dedupe0 hour response signals execResult
        t0 t1 t2 u).dedupe =
      prune_dedupe dedupe0 t1
        (effective_window guardrails options response.intent) ∧
    (∀ exec2 (s0 s1 s2 : ℚ),
        (async_handle options guardrails
            (prune_dedupe dedupe0 t1
              (effective_window guardrails options response.intent))
            hour response signals exec2 s0 s1 s2 u).outcome ≠
          .blocked "duplicate_suppressed") := by
  have heval := async_handle_gates_pass options guardrails dedupe0 hour
    response signals execResult t0 t1 t2 u hnight hdis hth hcg hdup hmiss
    hhours hver
  have hretry : ∀ exec2 (s0 s1 s2 : ℚ),
      (async_handle options guardrails
          (prune_dedupe dedupe0 t1
            (effective_window guardrails options response.intent))
          hour response signals exec2 s0 s1 s2 u).outcome ≠
        .blocked "duplicate_suppressed" := by
    intro exec2 s0 s1 s2
    have hdup2 : (decide (0 < effective_window guardrails options
          response.intent) &&
        is_recent_duplicate
          (prune_dedupe
            (prune_dedupe dedupe0 t1
              (effective_window guardrails options response.intent))
            s1 (effective_window guardrails options response.intent))
          (response_token response) s1
          (effective_window guardrails options response.intent)) = false := by
      by_cases hW : 0 < effective_window guardrails options response.intent
      · have hnone : dedupe_get
            (prune_dedupe dedupe0 t1
              (effective_window guardrails options response.intent))
            (response_token response) = none := by
          apply dedupe_get_prune_none_of_not_recent _ _ _ _ hW
          rcases Bool.and_eq_false_iff.mp hdup with hcase | hcase
          · exact absurd (decide_eq_true hW) (by simp [hcase])
          · exact hcase
        have hnone2 : dedupe_get
            (prune_dedupe
              (prune_dedupe dedupe0 t1
                (effective_window guardrails options response.intent))
              s1 (effective_window guardrails options response.intent))
            (response_token response) = none := by
          unfold prune_dedupe
          rw [if_neg (not_le.mpr hW)]
          exact dedupe_get_filter_none _ _ _ hnone
        simp [is_recent_duplicate, hnone2]
      · simp [decide_eq_false hW]
    rw [async_handle_gates_pass options guardrails _ hour response signals
      exec2 s0 s1 s2 u hnight hdis hth hcg hdup2 hmiss hhours hver]
    cases exec2 <;> simp [executor_failure_result]
  cases execResult with
  | ok => exact absurd rfl hfail
  | handlingError msg =>
      rw [heval]
      exact ⟨rfl, rfl, rfl, rfl, hretry⟩
  | unexpectedError =>
      rw [heval]
      exact ⟨rfl, rfl, rfl, rfl, hretry⟩

/-- Witness for C8: a high-confidence `turn_on` whose executor raises a
handling error fails without recording a dedupe timestamp, and its retry is
not treated as a duplicate. -/
theorem C8_executor_failure_atomicity_witness :
    (async_handle Examples.plainOptions {} [] 12 Examples.okResponse []
        (.handlingError "bulb offline") 0 1 2 "turn on").result.success =
      false ∧
    (async_handle Examples.plainOptions {} [] 12 Examples.okResponse []
        (.handlingError "bulb offline") 0 1 2 "turn on").outcome = .failed ∧
    (async_handle Examples.plainOptions {} [] 12 Examples.okResponse []
        (.handlingError "bulb offline") 0 1 2 "turn on").telemetry.map
      (fun e => e.outcome) = ["failed"] ∧
    (async_handle Examples.plainOptions {} [] 12 Examples.okResponse []
        (.handlingError "bulb offline") 0 1 2 "turn on").dedupe =
      prune_dedupe [] 1
        (effective_window {} Examples.plainOptions
          Examples.okResponse.intent) ∧
    (async_handle Examples.plainOptions {}
        (prune_dedupe [] 1
          (effective_window {} Examples.plainOptions
            Examples.okResponse.intent))
        12 Examples.okResponse [] .ok 2 3 4 "turn on").outcome ≠
      .blocked "duplicate_suppressed" :=
  let h := C8_executor_failure_atomicity Examples.plainOptions {} [] 12
    Examples.okResponse [] (.handlingError "bulb offline") 0 1 2 "turn on"
    (by decide) (by decide) (by decide) (by decide) (by decide) (by decide)
    (by decide) (by decide) (by decide)
  ⟨h.1, h.2.1, h.2.2.1, h.2.2.2.1, h.2.2.2.2 .ok 2 3 4⟩

/-- C4: duplicate suppression over the dedupe map.  With a positive
effective window (per-intent override when present, otherwise the global
default) and all other gates passing: the first call executes and records the
token at its `now_value`; a second content-identical call whose `now_value`
lies within the window of the recorded timestamp is blocked as a duplicate
and records no new timestamp, while a gap reaching past the window lets the
second call execute.  Pruning drops exactly the entries whose age has reached
the effective window, and a timestamp is recorded only after successful
execution. -/
theorem C4_dedupe_window
    (options : Options) (guardrails : GuardrailBundle) (dedupe0 : DedupeMap)
    (hour : ℤ) (response : InterpretResponse) (signals : List String)
    (t0 t1 t2 s0 s1 s2 : ℚ) (u : String)
    (hnight : night_mode_active options hour = false)
    (hdis : guardrails.is_disabled response.intent = false)
    (hth : ((guardrails.intent_config response.intent).confidence_threshold).any
        (fun t => decide (response.confidence < t)) = false)
    (hcg : confidence_blocked response options = false)
    (hmiss : missing_secondary_signals response signals = [])
    (hhours : ((guardrails.intent_config response.intent).dangerous &&
        ((guardrails.intent_config response.intent).allowed_hours).any
          (fun h => !within_allowed_hours h hour)) = false)
    (hver : ((guardrails.intent_config response.intent).dangerous &&
        !has_verification_flags response.params) = false)
    (hW : 0 < effective_window guardrails options response.intent)
    (hdup1 : is_recent_duplicate
        (prune_dedupe dedupe0 t1
          (effective_window guardrails options response.intent))
        (response_token response) t1
        (effective_window guardrails options response.intent) = false) :
    (async_handle options guardrails dedupe0 hour response signals .ok
        t0 t1 t2 u).outcome = .executed ∧
    dedupe_get
        (async_handle options guardrails dedupe0 hour response signals .ok
          t0 t1 t2 u).dedupe (response_token response) = some t1 ∧
    (s1 - t1 < effective_window guardrails options response.intent →
      (async_handle options guardrails
          (async_handle options guardrails dedupe0 hour response signals .ok
            t0 t1 t2 u).dedupe
          hour response signals .ok s0 s1 s2 u).outcome =
        .blocked "duplicate_suppressed" ∧
      (async_handle options guardrails
          (async_handle options guardrails dedupe0 hour response signals .ok
            t0 t1 t2 u).dedupe
          hour response signals .ok s0 s1 s2 u).result.success = false ∧
      dedupe_get
          (async_handle options guardrails
            (async_handle options guardrails dedupe0 hour response signals
              .ok t0 t1 t2 u).dedupe
            hour response signals .ok s0 s1 s2 u).dedupe
          (response_token response) = some t1) ∧
    (¬ s1 - t1 < effective_window guardrails options response.intent →
      (async_handle options guardrails
          (async_handle options guardrails dedupe0 hour response signals .ok
            t0 t1 t2 u).dedupe
          hour response signals .ok s0 s1 s2 u).outcome = .executed) ∧
    (∀ (m : DedupeMap) (c : ℚ) (e : ResponseToken × ℚ),
        e ∈ prune_dedupe m c
            (effective_window guardrails options response.intent) ↔
          e ∈ m ∧
            c - e.2 < effective_window guardrails options response.intent) ∧
    (∀ execResult, execResult ≠ .ok →
        (async_handle options guardrails dedupe0 hour response signals
            execResult t0 t1 t2 u).dedupe =
          prune_dedupe dedupe0 t1
            (effective_window guardrails options response.intent)) := by
  have hdupFirst : (decide (0 < effective_window guardrails options
        response.intent) &&
      is_recent_duplicate
        (prune_dedupe dedupe0 t1
          (effective_window guardrails options response.intent))
        (response_token response) t1
        (effective_window guardrails options response.intent)) = false := by
    rw [hdup1]
    simp
  have heval := fun execResult =>
    async_handle_gates_pass options guardrails dedupe0 hour response signals
      execResult t0 t1 t2 u hnight hdis hth hcg hdupFirst hmiss hhours hver
  have hdec : decide (0 < effective_window guardrails options
      response.intent) = true := decide_eq_true hW
  have hdedupe1 : (async_handle options guardrails dedupe0 hour response
      signals .ok t0 t1 t2 u).dedupe =
      dedupe_set
        (prune_dedupe dedupe0 t1
          (effective_window guardrails options response.intent))
        (response_token response) t1 := by
    rw [heval .ok]
    simp only [hdec, if_pos]
  refine ⟨by rw [heval .ok], ?_, ?_, ?_, ?_, ?_⟩
  · rw [hdedupe1]
    exact dedupe_get_set_self _ _ _
  · intro hgap
    have hget2 : dedupe_get
        (prune_dedupe
          ((async_handle options guardrails dedupe0 hour response signals .ok
            t0 t1 t2 u).dedupe)
          s1 (effective_window guardrails options response.intent))
        (response_token response) = some t1 := by
      rw [hdedupe1]
      exact dedupe_get_prune_set _ _ _ _ _ hW hgap
    have hdup2 : (decide (0 < effective_window guardrails options
          response.intent) &&
        is_recent_duplicate
          (prune_dedupe
            ((async_handle options guardrails dedupe0 hour response signals
              .ok t0 t1 t2 u).dedupe)
            s1 (effective_window guardrails options response.intent))
          (response_token response) s1
          (effective_window guardrails options response.intent)) = true := by
      rw [hdec]
      simp [is_recent_duplicate, hget2, hgap]
    have hblocked := async_handle_duplicate_blocked options guardrails
      ((async_handle options guardrails dedupe0 hour response signals .ok
        t0 t1 t2 u).dedupe)
      hour response signals .ok s0 s1 s2 u hnight hdis hth hcg hdup2
    rw [hblocked]
    exact ⟨rfl, rfl, hget2⟩
  · intro hgap
    have hget2 : dedupe_get
        (prune_dedupe
          ((async_handle options guardrails dedupe0 hour response signals .ok
            t0 t1 t2 u).dedupe)
          s1 (effective_window guardrails options response.intent))
        (response_token response) = none := by
      rw [hdedupe1]
      exact dedupe_get_prune_set_stale _ _ _ _ _ hW hgap
    have hdup2 : (decide (0 < effective_window guardrails options
          response.intent) &&
        is_recent_duplicate
          (prune_dedupe
            ((async_handle options guardrails dedupe0 hour response signals
              .ok t0 t1 t2 u).dedupe)
            s1 (effective_window guardrails options response.intent))
          (response_token response) s1
          (effective_window guardrails options response.intent)) = false := by
      simp [is_recent_duplicate, hget2]
    rw [async_handle_gates_pass options guardrails _ hour response signals
      .ok s0 s1 s2 u hnight hdis hth hcg hdup2 hmiss hhours hver]
  · intro m c e
    exact mem_prune_dedupe m c _ e hW
  · intro execResult hfail
    cases execResult with
    | ok => exact absurd rfl hfail
    | handlingError msg =>
        rw [heval (.handlingError msg)]
        rfl
    | unexpectedError =>
        rw [heval .unexpectedError]
        rfl

/-- A one-second gap lies inside the two-second window. -/
theorem gap_within_two_second_window : (2 : ℚ) - 1 < 2 :=
  sub_lt_self 2 one_pos

/-- A three-second gap lies outside the two-second window. -/
theorem gap_exceeds_two_second_window : ¬ ((4 : ℚ) - 1 < 2) := by
  norm_num

/-- Witness for C4: the default two-second window on an empty dedupe map
gives `(executed, blocked)` for a repeat one second later and
`(executed, executed)` for a repeat three seconds later. -/
theorem C4_dedupe_window_witness :
    (async_handle Examples.plainOptions {} [] 12 Examples.okResponse [] .ok
        0 1 2 "turn on the kitchen light").outcome = .executed ∧
    (async_handle Examples.plainOptions {}
        (async_handle Examples.plainOptions {} [] 12 Examples.okResponse []
          .ok 0 1 2 "turn on the kitchen light").dedupe
        12 Examples.okResponse [] .ok 2 2 3
        "turn on the kitchen light").outcome =
      .blocked "duplicate_suppressed" ∧
    (async_handle Examples.plainOptions {}
        (async_handle Examples.plainOptions {} [] 12 Examples.okResponse []
          .ok 0 1 2 "turn on the kitchen light").dedupe
        12 Examples.okResponse [] .ok 3 4 5
        "turn on the kitchen light").outcome = .executed :=
  ⟨(C4_dedupe_window Examples.plainOptions {} [] 12 Examples.okResponse []
      0 1 2 2 2 3 "turn on the kitchen light" (by decide) (by decide)
      (by decide) (by decide) (by decide) (by decide) (by decide) (by decide)
      (by decide)).1,
   ((C4_dedupe_window Examples.plainOptions {} [] 12 Examples.okResponse []
      0 1 2 2 2 3 "turn on the kitchen light" (by decide) (by decide)
      (by decide) (by decide) (by decide) (by decide) (by decide) (by decide)
      (by decide)).2.2.1 gap_within_two_second_window).1,
   (C4_dedupe_window Examples.plainOptions {} [] 12 Examples.okResponse []
      0 1 2 3 4 5 "turn on the kitchen light" (by decide) (by decide)
      (by decide) (by decide) (by decide) (by decide) (by decide) (by decide)
      (by decide)).2.2.2.1 gap_exceeds_two_second_window⟩

end Conversation

end EntangledHome
